import Mathlib

/-
Shallow embedding of `src/App.py` (git-projects-overview).

The program scans a root folder, probes each immediate subdirectory for
git status, and shows the results as table rows that can be expanded
(rescanned) on demand.  External effects — the filesystem and the git
subprocess — are modelled by an explicit environment `Env`; each Python
function becomes a Lean function over that environment.
-/

namespace GitOverview

/-- The external world as seen by `App.py`:
`pathExists` models `os.path.exists`, `listdir` models `os.listdir`,
`isdir` models `os.path.isdir`, and `checkOutput path cmd` models
`subprocess.check_output(["git", "-C", path] + cmd.split())` followed by
`.decode().strip()`, with `Except.error` standing for any raised
exception (caught by the bare `except:` in `git`). -/
structure Env where
  pathExists : String → Bool
  listdir : String → List String
  isdir : String → Bool
  checkOutput : String → String → Except String String

/-- The dictionary returned by `get_git_info` (App.py lines 11-34).
`none` in an `Option` field models the key being absent from the dict. -/
structure RepoInfo where
  path : String
  is_git : Bool
  branch : Option String := none
  remote : Option String := none
  dirty : Option String := none
deriving Repr, DecidableEq

/-- Python truthiness test `not x` for an optional string:
true for `None` and for the empty string. -/
def pyFalsy : Option String → Bool
  | none => true
  | some s => s == ""

/-- Python `x or d` for an optional string `x`: `d` when `x` is `None`
or empty, otherwise the string itself. -/
def pyOr (o : Option String) (d : String) : String :=
  match o with
  | none => d
  | some s => if s == "" then d else s

/-- `os.path.join(a, b)` on a POSIX path. -/
def osJoin (a b : String) : String := a ++ "/" ++ b

/-- The inner helper `git(cmd)` of `get_git_info` (App.py lines 15-21):
runs the subprocess and returns `None` on any exception. -/
def git (env : Env) (path cmd : String) : Option String :=
  match env.checkOutput path cmd with
  | .ok s => some s
  | .error _ => none

/-- `get_git_info(path)` (App.py lines 11-34). -/
def get_git_info (env : Env) (path : String) : RepoInfo :=
  if env.pathExists (osJoin path ".git") = false then
    { path := path, is_git := false }
  else
    let branch := git env path "rev-parse --abbrev-ref HEAD"
    let remote := git env path "remote get-url origin"
    let status := git env path "status --porcelain"
    let _log := git env path "log -1 --format=%cd"
    let dirty := if pyFalsy status then "Clean" else "Dirty"
    { path := path
      is_git := true
      branch := some (pyOr branch "—")
      remote := some (pyOr remote "—")
      dirty := some dirty }

lemma get_git_info_path (env : Env) (p : String) : (get_git_info env p).path = p := by
  unfold get_git_info
  split <;> rfl

/-- C5: a directory without a `.git` marker probes to `is_git = false`
with the `branch`, `remote` and `dirty` keys absent from the result. -/
theorem C5_not_repo_fields_absent (env : Env) (path : String)
    (h : env.pathExists (osJoin path ".git") = false) :
    (get_git_info env path).is_git = false
    ∧ (get_git_info env path).branch = none
    ∧ (get_git_info env path).remote = none
    ∧ (get_git_info env path).dirty = none := by
  simp [get_git_info, h]

/-- C5 witness: the theorem at a concrete environment where no path exists. -/
theorem C5_not_repo_fields_absent_witness :
    ((⟨fun _ => false, fun _ => [], fun _ => false, fun _ _ => .error "e"⟩ : Env).pathExists
        (osJoin "/d" ".git") = false)
    ∧ ((get_git_info ⟨fun _ => false, fun _ => [], fun _ => false, fun _ _ => .error "e"⟩
          "/d").is_git = false
      ∧ (get_git_info ⟨fun _ => false, fun _ => [], fun _ => false, fun _ _ => .error "e"⟩
          "/d").branch = none
      ∧ (get_git_info ⟨fun _ => false, fun _ => [], fun _ => false, fun _ _ => .error "e"⟩
          "/d").remote = none
      ∧ (get_git_info ⟨fun _ => false, fun _ => [], fun _ => false, fun _ _ => .error "e"⟩
          "/d").dirty = none) :=
  ⟨rfl, C5_not_repo_fields_absent _ "/d" rfl⟩

/-- C8: the probe reports a repository iff the `.git` marker exists
directly beneath the path, and the answer depends on nothing but that
one marker (in particular no upward search to parents: two environments
agreeing on `path/.git` give the same `is_git`). -/
theorem C8_is_repo_iff_marker (env : Env) (path : String) :
    ((get_git_info env path).is_git = true ↔ env.pathExists (osJoin path ".git") = true)
    ∧ (∀ env2 : Env,
        env2.pathExists (osJoin path ".git") = env.pathExists (osJoin path ".git") →
        (get_git_info env2 path).is_git = (get_git_info env path).is_git) := by
  constructor
  · unfold get_git_info
    rcases h : env.pathExists (osJoin path ".git") <;> simp [h]
  · intro env2 h2
    unfold get_git_info
    rw [h2]
    rcases h : env.pathExists (osJoin path ".git") <;> simp [h]

/-- C8 witness: the theorem at a concrete environment, its inner
hypothesis discharged at a second concrete environment. -/
theorem C8_is_repo_iff_marker_witness :
    (((get_git_info ⟨fun _ => true, fun _ => [], fun _ => false, fun _ _ => .ok "out"⟩
        "/d").is_git = true
      ↔ (⟨fun _ => true, fun _ => [], fun _ => false, fun _ _ => .ok "out"⟩ : Env).pathExists
          (osJoin "/d" ".git") = true)
    ∧ (get_git_info ⟨fun _ => true, fun _ => [], fun _ => true, fun _ _ => .error "e"⟩
        "/d").is_git
      = (get_git_info ⟨fun _ => true, fun _ => [], fun _ => false, fun _ _ => .ok "out"⟩
        "/d").is_git) :=
  ⟨(C8_is_repo_iff_marker _ "/d").1,
   (C8_is_repo_iff_marker ⟨fun _ => true, fun _ => [], fun _ => false, fun _ _ => .ok "out"⟩
      "/d").2 ⟨fun _ => true, fun _ => [], fun _ => true, fun _ _ => .error "e"⟩ rfl⟩

/-- `scan_top_level(path)` (App.py lines 156-161): the list comprehension
over `os.listdir(path)` keeping directories and probing each one. -/
def scan_top_level (env : Env) (path : String) : List RepoInfo :=
  (env.listdir path).foldr
    (fun f acc =>
      if env.isdir (osJoin path f) then get_git_info env (osJoin path f) :: acc else acc) []

lemma comprehension_eq (l : List String) (c : String → Bool) (g : String → RepoInfo) :
    l.foldr (fun f acc => if c f then g f :: acc else acc) [] = (l.filter c).map g := by
  induction l with
  | nil => rfl
  | cons a t ih => by_cases h : c a <;> simp [List.filter_cons, h, ih]

lemma scan_top_level_eq (env : Env) (path : String) :
    scan_top_level env path
      = ((env.listdir path).filter (fun f => env.isdir (osJoin path f))).map
          (fun f => get_git_info env (osJoin path f)) :=
  comprehension_eq _ _ _

lemma osJoin_right_injective (a : String) : Function.Injective (osJoin a) := by
  intro b1 b2 h
  have hd := congrArg String.data h
  simp only [osJoin, String.data_append] at hd
  exact String.ext (List.append_cancel_left hd)

/-- C1 counterexample: an environment where the `.git` marker exists but
every git subprocess raises.  The status query fails (`git ... = none`),
yet the probe reports `dirty = "Clean"` — the claim requires `Unknown`,
never `Clean`, for a failed status query. -/
theorem C1_failed_status_reports_clean :
    git (⟨fun _ => true, fun _ => [], fun _ => false, fun _ _ => .error "fail"⟩ : Env)
      "/r" "status --porcelain" = none
    ∧ (get_git_info (⟨fun _ => true, fun _ => [], fun _ => false, fun _ _ => .error "fail"⟩ : Env)
        "/r").dirty = some "Clean" := by
  constructor <;> rfl

/-- C1 amended: for a repository directory, `dirty` is `"Clean"` iff the
status query fails or returns empty output, `"Dirty"` iff it returns
non-empty output, and `"Unknown"` is never produced; in particular a
failed status query yields `"Clean"`. -/
theorem C1_clean_iff_status_falsy (env : Env) (path : String)
    (h : env.pathExists (osJoin path ".git") = true) :
    ((get_git_info env path).dirty = some "Clean"
      ↔ (git env path "status --porcelain" = none
        ∨ git env path "status --porcelain" = some ""))
    ∧ ((get_git_info env path).dirty = some "Dirty"
      ↔ ∃ s, git env path "status --porcelain" = some s ∧ s ≠ "")
    ∧ (git env path "status --porcelain" = none → (get_git_info env path).dirty = some "Clean")
    ∧ (get_git_info env path).dirty ≠ some "Unknown" := by
  rcases hs : git env path "status --porcelain" with _ | s
  · simp [get_git_info, h, hs, pyFalsy]
  · by_cases he : s = "" <;> simp [get_git_info, h, hs, pyFalsy, he]

/-- C1 amended witness: concrete repository environment whose status
query returns a non-empty string. -/
theorem C1_clean_iff_status_falsy_witness :
    ((⟨fun _ => true, fun _ => [], fun _ => false, fun _ _ => .ok " M App.py"⟩ : Env).pathExists
        (osJoin "/r" ".git") = true)
    ∧ (get_git_info (⟨fun _ => true, fun _ => [], fun _ => false,
          fun _ _ => .ok " M App.py"⟩ : Env) "/r").dirty = some "Dirty" :=
  ⟨rfl,
    ((C1_clean_iff_status_falsy _ "/r" rfl).2.1).2 ⟨" M App.py", rfl, by decide⟩⟩

/-- C7 counterexample: branch and remote queries succeed and only the
status query fails; the `dirty` field becomes `"Clean"`, which is
neither absent nor `Unknown`, refuting "only degrades that sub-query's
field to absent/Unknown". -/
theorem C7_failed_subquery_not_degraded_to_unknown :
    git (⟨fun _ => true, fun _ => [], fun _ => false,
        fun _ cmd => if cmd == "status --porcelain" then .error "denied" else .ok "main"⟩ : Env)
      "/r" "status --porcelain" = none
    ∧ (get_git_info (⟨fun _ => true, fun _ => [], fun _ => false,
          fun _ cmd => if cmd == "status --porcelain" then .error "denied" else .ok "main"⟩ : Env)
        "/r").dirty = some "Clean"
    ∧ (get_git_info (⟨fun _ => true, fun _ => [], fun _ => false,
          fun _ cmd => if cmd == "status --porcelain" then .error "denied" else .ok "main"⟩ : Env)
        "/r").dirty ≠ none
    ∧ (get_git_info (⟨fun _ => true, fun _ => [], fun _ => false,
          fun _ cmd => if cmd == "status --porcelain" then .error "denied" else .ok "main"⟩ : Env)
        "/r").dirty ≠ some "Unknown" := by
  refine ⟨rfl, rfl, by decide, by decide⟩

/-- C7 amended: the probe never throws — a non-repository directory is a
normal `is_git = false` result — and a failed sub-query degrades only its
own field: a failed branch or remote query becomes the placeholder `"—"`,
while a failed status query becomes `"Clean"` (not absent or Unknown);
in every case the probe still returns a result. -/
theorem C7_partial_degradation (env : Env) (path : String) :
    (env.pathExists (osJoin path ".git") = false →
      get_git_info env path = { path := path, is_git := false })
    ∧ (env.pathExists (osJoin path ".git") = true →
        (get_git_info env path).is_git = true
        ∧ (git env path "rev-parse --abbrev-ref HEAD" = none →
            (get_git_info env path).branch = some "—")
        ∧ (git env path "remote get-url origin" = none →
            (get_git_info env path).remote = some "—")
        ∧ (git env path "status --porcelain" = none →
            (get_git_info env path).dirty = some "Clean")) := by
  constructor
  · intro h
    simp [get_git_info, h]
  · intro h
    refine ⟨by simp [get_git_info, h], ?_, ?_, ?_⟩
    · intro hb
      simp [get_git_info, h, hb, pyOr]
    · intro hr
      simp [get_git_info, h, hr, pyOr]
    · intro hs
      simp [get_git_info, h, hs, pyFalsy]

/-- C7 amended witness: concrete repository environment where every git
subprocess raises; all inner hypotheses are discharged. -/
theorem C7_partial_degradation_witness :
    ((⟨fun _ => true, fun _ => [], fun _ => false, fun _ _ => .error "boom"⟩ : Env).pathExists
        (osJoin "/r" ".git") = true)
    ∧ (get_git_info (⟨fun _ => true, fun _ => [], fun _ => false,
          fun _ _ => .error "boom"⟩ : Env) "/r").is_git = true
    ∧ (get_git_info (⟨fun _ => true, fun _ => [], fun _ => false,
          fun _ _ => .error "boom"⟩ : Env) "/r").branch = some "—"
    ∧ (get_git_info (⟨fun _ => true, fun _ => [], fun _ => false,
          fun _ _ => .error "boom"⟩ : Env) "/r").remote = some "—"
    ∧ (get_git_info (⟨fun _ => true, fun _ => [], fun _ => false,
          fun _ _ => .error "boom"⟩ : Env) "/r").dirty = some "Clean" := by
  have h := (C7_partial_degradation
      (⟨fun _ => true, fun _ => [], fun _ => false, fun _ _ => .error "boom"⟩ : Env) "/r").2 rfl
  exact ⟨rfl, h.1, h.2.1 rfl, h.2.2.1 rfl, h.2.2.2 rfl⟩

/-- C10: the probe is total and signals no error to the caller — the
catch-all in `git` maps any subprocess exception to `None`, and a path
without the `.git` marker yields the plain `is_git = false` record. -/
theorem C10_probe_total_no_error (env : Env) (path : String) :
    (∀ cmd e, env.checkOutput path cmd = .error e → git env path cmd = none)
    ∧ (env.pathExists (osJoin path ".git") = false →
        get_git_info env path = { path := path, is_git := false })
    ∧ ((get_git_info env path).path = path
      ∧ ((get_git_info env path).is_git = true ∨ (get_git_info env path).is_git = false)) := by
  refine ⟨?_, ?_, get_git_info_path env path, ?_⟩
  · intro cmd e he
    simp [git, he]
  · intro h
    simp [get_git_info, h]
  · rcases (get_git_info env path).is_git <;> simp

/-- C10 witness: concrete environment with no marker and a raising
subprocess; both inner hypotheses are discharged. -/
theorem C10_probe_total_no_error_witness :
    git (⟨fun _ => false, fun _ => [], fun _ => false, fun _ _ => .error "oops"⟩ : Env)
      "/d" "status --porcelain" = none
    ∧ get_git_info (⟨fun _ => false, fun _ => [], fun _ => false, fun _ _ => .error "oops"⟩ : Env)
        "/d" = { path := "/d", is_git := false } :=
  ⟨(C10_probe_total_no_error _ "/d").1 "status --porcelain" "oops" rfl,
   (C10_probe_total_no_error _ "/d").2.1 rfl⟩

/-- C6: for a readable directory, `scan_top_level` returns exactly the
directory-type immediate children, in the listing's order, each the
result of exactly one probe of its own path — none dropped, and (for a
duplicate-free listing, as `os.listdir` guarantees) none duplicated. -/
theorem C6_list_exact (env : Env) (path : String)
    (hnd : (env.listdir path).Nodup) :
    ((scan_top_level env path).map RepoInfo.path
      = ((env.listdir path).filter (fun f => env.isdir (osJoin path f))).map (osJoin path))
    ∧ (∀ r ∈ scan_top_level env path, r = get_git_info env r.path)
    ∧ ((scan_top_level env path).map RepoInfo.path).Nodup := by
  refine ⟨?_, ?_, ?_⟩
  · rw [scan_top_level_eq, List.map_map]
    exact List.map_congr_left fun f _ => get_git_info_path env (osJoin path f)
  · intro r hr
    rw [scan_top_level_eq] at hr
    rcases List.mem_map.mp hr with ⟨f, _, rfl⟩
    rw [get_git_info_path]
  · rw [scan_top_level_eq, List.map_map]
    have : ((env.listdir path).filter (fun f => env.isdir (osJoin path f))).map
        (RepoInfo.path ∘ fun f => get_git_info env (osJoin path f))
        = ((env.listdir path).filter (fun f => env.isdir (osJoin path f))).map (osJoin path) :=
      List.map_congr_left fun f _ => get_git_info_path env (osJoin path f)
    rw [this]
    exact (hnd.filter _).map (osJoin_right_injective path)

/-- C6 witness: a concrete listing with a non-directory entry filtered out. -/
theorem C6_list_exact_witness :
    ((⟨fun _ => false, fun _ => ["a", "b", "f.txt"],
        fun p => p == "/w/a" || p == "/w/b", fun _ _ => .error "e"⟩ : Env).listdir "/w").Nodup
    ∧ (((scan_top_level (⟨fun _ => false, fun _ => ["a", "b", "f.txt"],
          fun p => p == "/w/a" || p == "/w/b", fun _ _ => .error "e"⟩ : Env) "/w").map
            RepoInfo.path
        = (((⟨fun _ => false, fun _ => ["a", "b", "f.txt"],
            fun p => p == "/w/a" || p == "/w/b", fun _ _ => .error "e"⟩ : Env).listdir
              "/w").filter
            (fun f => (⟨fun _ => false, fun _ => ["a", "b", "f.txt"],
              fun p => p == "/w/a" || p == "/w/b", fun _ _ => .error "e"⟩ : Env).isdir
                (osJoin "/w" f))).map (osJoin "/w"))
      ∧ (∀ r ∈ scan_top_level (⟨fun _ => false, fun _ => ["a", "b", "f.txt"],
            fun p => p == "/w/a" || p == "/w/b", fun _ _ => .error "e"⟩ : Env) "/w",
          r = get_git_info (⟨fun _ => false, fun _ => ["a", "b", "f.txt"],
            fun p => p == "/w/a" || p == "/w/b", fun _ _ => .error "e"⟩ : Env) r.path)
      ∧ ((scan_top_level (⟨fun _ => false, fun _ => ["a", "b", "f.txt"],
          fun p => p == "/w/a" || p == "/w/b", fun _ _ => .error "e"⟩ : Env) "/w").map
            RepoInfo.path).Nodup) :=
  ⟨by decide, C6_list_exact _ "/w" (by decide)⟩

/-- A `FolderRow` of the data table (App.py lines 59-107), reduced to the
data the scan engine owns: the probed info and the indentation level
passed to the constructor. -/
structure Row where
  info : RepoInfo
  level : Nat
deriving Repr, DecidableEq

/-- Python `list.insert(i, x)`: insert before index `i` (append when `i`
is past the end). -/
def pyInsert (l : List Row) (i : Nat) (x : Row) : List Row :=
  l.take i ++ x :: l.drop i

/-- The insertion loop of `rescan_folder` (App.py lines 172-175): insert
each new row at `insert_index`, then increment `insert_index`. -/
def insertIdxLoop (rows : List Row) (idx : Nat) (subs : List Row) : List Row :=
  match subs with
  | [] => rows
  | s :: rest => insertIdxLoop (pyInsert rows idx s) (idx + 1) rest

lemma insertIdxLoop_append (subs : List Row) : ∀ A B : List Row,
    insertIdxLoop (A ++ B) A.length subs = A ++ subs ++ B := by
  induction subs with
  | nil => intro A B; simp [insertIdxLoop]
  | cons s rest ih =>
    intro A B
    rw [insertIdxLoop]
    have h1 : pyInsert (A ++ B) A.length s = (A ++ [s]) ++ B := by
      simp [pyInsert, List.take_left, List.drop_left]
    have h2 : (A ++ [s]).length = A.length + 1 := by simp
    rw [h1, ← h2, ih (A ++ [s]) B]
    simp

lemma insertIdxLoop_eq (rows subs : List Row) (idx : Nat) (h : idx ≤ rows.length) :
    insertIdxLoop rows idx subs = rows.take idx ++ subs ++ rows.drop idx := by
  have hA : (rows.take idx).length = idx := by
    simp [List.length_take]
    omega
  calc insertIdxLoop rows idx subs
      = insertIdxLoop (rows.take idx ++ rows.drop idx) (rows.take idx).length subs := by
        rw [List.take_append_drop, hA]
    _ = rows.take idx ++ subs ++ rows.drop idx := insertIdxLoop_append subs _ _

/-- The worker task of `rescan_folder` (App.py lines 163-181) applied to
the row list: list the subfolders of the clicked row's path and insert a
level-1 `FolderRow` for each, starting right after the row's index. -/
def rescan_folder_task (env : Env) (rows : List Row) (rowIdx : Nat) (infoPath : String) :
    List Row :=
  let subfolders := scan_top_level env infoPath
  insertIdxLoop rows (rowIdx + 1) (subfolders.map fun si => { info := si, level := 1 })

/-- Environment used as concrete input for the rescan claims: `/p` has a
single subdirectory `new`. -/
def envRescan : Env :=
  ⟨fun _ => false, fun p => if p == "/p" then ["new"] else [], fun _ => true,
    fun _ _ => .error "e"⟩

/-- C3 counterexample: rescanning a row whose previously inserted child
`/p/old` no longer exists on disk (`/p` now lists only `new`) leaves the
stale child row in the table; the result is the union of old and new
children, not a replacement. -/
theorem C3_stale_child_lingers :
    rescan_folder_task envRescan
        [⟨⟨"/p", false, none, none, none⟩, 0⟩, ⟨⟨"/p/old", false, none, none, none⟩, 1⟩]
        0 "/p"
      = [⟨⟨"/p", false, none, none, none⟩, 0⟩,
         ⟨⟨"/p/new", false, none, none, none⟩, 1⟩,
         ⟨⟨"/p/old", false, none, none, none⟩, 1⟩]
    ∧ (⟨⟨"/p/old", false, none, none, none⟩, 1⟩ : Row)
        ∉ (scan_top_level envRescan "/p").map (fun si => (⟨si, 1⟩ : Row)) := by
  refine ⟨by decide, by decide⟩

/-- C3 amended: re-expanding a node does not discard its prior children;
every previously present row is retained, every freshly listed child is
inserted, and the row count grows by the size of the new listing (a
merge, not a replacement). -/
theorem C3_reexpand_merges (env : Env) (rows : List Row) (i : Nat) (p : String)
    (h : i < rows.length) :
    (∀ r ∈ rows, r ∈ rescan_folder_task env rows i p)
    ∧ (∀ r ∈ (scan_top_level env p).map (fun si => ({ info := si, level := 1 } : Row)),
        r ∈ rescan_folder_task env rows i p)
    ∧ (rescan_folder_task env rows i p).length
        = rows.length + (scan_top_level env p).length := by
  have he : rescan_folder_task env rows i p
      = rows.take (i + 1)
        ++ (scan_top_level env p).map (fun si => ({ info := si, level := 1 } : Row))
        ++ rows.drop (i + 1) := by
    unfold rescan_folder_task
    exact insertIdxLoop_eq rows _ (i + 1) h
  refine ⟨?_, ?_, ?_⟩
  · intro r hr
    rw [he]
    rw [← List.take_append_drop (i + 1) rows] at hr
    rcases List.mem_append.mp hr with h1 | h2
    · exact List.mem_append_left _ (List.mem_append_left _ h1)
    · exact List.mem_append_right _ h2
  · intro r hr
    rw [he]
    exact List.mem_append_left _ (List.mem_append_right _ hr)
  · rw [he]
    simp [List.length_take]
    omega

/-- C3 amended witness: the theorem at the concrete rescan environment. -/
theorem C3_reexpand_merges_witness :
    0 < 2
    ∧ ((∀ r ∈ [(⟨⟨"/p", false, none, none, none⟩, 0⟩ : Row),
          ⟨⟨"/p/old", false, none, none, none⟩, 1⟩],
        r ∈ rescan_folder_task envRescan
          [⟨⟨"/p", false, none, none, none⟩, 0⟩, ⟨⟨"/p/old", false, none, none, none⟩, 1⟩]
          0 "/p")
      ∧ (∀ r ∈ (scan_top_level envRescan "/p").map
            (fun si => ({ info := si, level := 1 } : Row)),
          r ∈ rescan_folder_task envRescan
            [⟨⟨"/p", false, none, none, none⟩, 0⟩, ⟨⟨"/p/old", false, none, none, none⟩, 1⟩]
            0 "/p")
      ∧ (rescan_folder_task envRescan
          [⟨⟨"/p", false, none, none, none⟩, 0⟩, ⟨⟨"/p/old", false, none, none, none⟩, 1⟩]
          0 "/p").length
          = ([(⟨⟨"/p", false, none, none, none⟩, 0⟩ : Row),
              ⟨⟨"/p/old", false, none, none, none⟩, 1⟩]).length
            + (scan_top_level envRescan "/p").length) :=
  ⟨by decide, C3_reexpand_merges envRescan _ 0 "/p" (by decide)⟩

/-- C9 counterexample: rescanning a row that itself sits at level 1
inserts its child at level 1 as well — not at the parent's level plus
one, since `rescan_folder` always constructs `FolderRow(sub_info, 1, …)`. -/
theorem C9_child_level_not_parent_plus_one :
    rescan_folder_task envRescan [⟨⟨"/p", false, none, none, none⟩, 1⟩] 0 "/p"
      = [⟨⟨"/p", false, none, none, none⟩, 1⟩, ⟨⟨"/p/new", false, none, none, none⟩, 1⟩]
    ∧ (⟨⟨"/p/new", false, none, none, none⟩, 1⟩ : Row).level
        ≠ (⟨⟨"/p", false, none, none, none⟩, 1⟩ : Row).level + 1 := by
  refine ⟨by decide, by decide⟩

/-- C9 amended: expanding a node splices its listed children into the
tree immediately following the node's position, in listing order, but
every inserted child is created at level 1 regardless of the parent's
level (equal to `parentDepth + 1` only for top-level parents). -/
theorem C9_splice_after_node_level_one (env : Env) (rows : List Row) (i : Nat) (p : String)
    (h : i < rows.length) :
    rescan_folder_task env rows i p
      = rows.take (i + 1)
        ++ (scan_top_level env p).map (fun si => ({ info := si, level := 1 } : Row))
        ++ rows.drop (i + 1)
    ∧ ∀ r ∈ (scan_top_level env p).map (fun si => ({ info := si, level := 1 } : Row)),
        r.level = 1 := by
  refine ⟨?_, ?_⟩
  · unfold rescan_folder_task
    exact insertIdxLoop_eq rows _ (i + 1) h
  · intro r hr
    rcases List.mem_map.mp hr with ⟨si, _, rfl⟩
    rfl

/-- C9 amended witness: the theorem at a concrete level-1 parent row. -/
theorem C9_splice_after_node_level_one_witness :
    0 < 1
    ∧ (rescan_folder_task envRescan [⟨⟨"/p", false, none, none, none⟩, 1⟩] 0 "/p"
        = ([(⟨⟨"/p", false, none, none, none⟩, 1⟩ : Row)]).take 1
          ++ (scan_top_level envRescan "/p").map
              (fun si => ({ info := si, level := 1 } : Row))
          ++ ([(⟨⟨"/p", false, none, none, none⟩, 1⟩ : Row)]).drop 1
      ∧ ∀ r ∈ (scan_top_level envRescan "/p").map
            (fun si => ({ info := si, level := 1 } : Row)),
          r.level = 1) :=
  ⟨by decide, C9_splice_after_node_level_one envRescan _ 0 "/p" (by decide)⟩

/-- Scheduling state of the app: `inFlight` holds one entry (the path to
be listed) per rescan thread that has been started and has not yet run
its task, and `listingCalls` counts the `scan_top_level` invocations
performed so far.  `rescan_folder` (App.py lines 163-181) keeps no such
bookkeeping itself; this state merely records what its unconditional
`threading.Thread(target=task).start()` does. -/
structure Sched where
  inFlight : List String
  listingCalls : Nat
deriving Repr, DecidableEq

/-- One call of `rescan_folder` (App.py line 181): a new thread is
spawned unconditionally — no existing in-flight rescan of the same path
is checked for — so one more pending listing task is queued. -/
def rescan_folder_spawn (s : Sched) (p : String) : Sched :=
  { s with inFlight := s.inFlight ++ [p] }

/-- One spawned task runs to completion, performing its single
`scan_top_level` call (App.py line 169). -/
def worker_step (s : Sched) : Sched :=
  match s.inFlight with
  | [] => s
  | _ :: rest => { inFlight := rest, listingCalls := s.listingCalls + 1 }

/-- C2 counterexample: a second expand request on `/n` while the first
is still in flight queues a second listing task, and running both tasks
performs two underlying listing calls, not one. -/
theorem C2_double_expand_double_listing :
    (rescan_folder_spawn (⟨[], 0⟩ : Sched) "/n").inFlight = ["/n"]
    ∧ (rescan_folder_spawn (rescan_folder_spawn (⟨[], 0⟩ : Sched) "/n") "/n").inFlight
        = ["/n", "/n"]
    ∧ (worker_step (worker_step
        (rescan_folder_spawn (rescan_folder_spawn (⟨[], 0⟩ : Sched) "/n") "/n"))).listingCalls
        = 2 := by
  refine ⟨rfl, rfl, rfl⟩

/-- C2 amended: an expand request on a node that already has a listing
in flight unconditionally spawns one more listing task for that node, so
the node then has at least two in-flight listings — there is no
at-most-one-in-flight coalescing. -/
theorem C2_no_coalescing (s : Sched) (p : String) (h : p ∈ s.inFlight) :
    (rescan_folder_spawn s p).inFlight.count p = s.inFlight.count p + 1
    ∧ 2 ≤ (rescan_folder_spawn s p).inFlight.count p := by
  have hc : (rescan_folder_spawn s p).inFlight.count p = s.inFlight.count p + 1 := by
    simp [rescan_folder_spawn]
  refine ⟨hc, ?_⟩
  have hp : 0 < s.inFlight.count p := List.count_pos_iff.mpr h
  omega

/-- C2 amended witness: a state with one in-flight listing for `/n`. -/
theorem C2_no_coalescing_witness :
    "/n" ∈ (⟨["/n"], 0⟩ : Sched).inFlight
    ∧ ((rescan_folder_spawn (⟨["/n"], 0⟩ : Sched) "/n").inFlight.count "/n"
        = (⟨["/n"], 0⟩ : Sched).inFlight.count "/n" + 1
      ∧ 2 ≤ (rescan_folder_spawn (⟨["/n"], 0⟩ : Sched) "/n").inFlight.count "/n") :=
  ⟨by decide, C2_no_coalescing ⟨["/n"], 0⟩ "/n" (by decide)⟩

/-- The pieces of UI state that `scan_projects` touches: the table's row
list and the status text. -/
structure AppState where
  rows : List Row
  statusText : String
deriving Repr, DecidableEq

/-- `scan_projects(e)` (App.py lines 183-204) up to the point where it
either returns or spawns the worker thread: the rows are cleared first,
the root input is stripped, and only then is its existence checked.  The
second component is the spawned worker's root path, `none` when no
thread is started. -/
def scan_projects (env : Env) (st : AppState) (rootInput : String) :
    AppState × Option String :=
  let cleared : AppState := { st with rows := [] }
  let root := rootInput.trim
  if env.pathExists root = false then
    ({ cleared with statusText := "❌ Path not found" }, none)
  else
    (cleared, some root)

/-- The worker task of `scan_projects` (App.py lines 191-204): append a
level-0 row per scanned top-level folder. -/
def scan_projects_task (env : Env) (st : AppState) (root : String) : AppState :=
  { rows := st.rows ++ (scan_top_level env root).map (fun i => { info := i, level := 0 }),
    statusText := "✅ Scan complete" }

/-- C4 counterexample: seeding with a nonexistent root surfaces the
failure immediately and spawns no worker, but the previously displayed
rows are gone — `data_table.rows.clear()` runs before the existence
check, so the tree does not remain unchanged. -/
theorem C4_failed_seed_clears_rows :
    (scan_projects (⟨fun _ => false, fun _ => [], fun _ => false, fun _ _ => .error "e"⟩ : Env)
        ⟨[⟨⟨"/old/a", false, none, none, none⟩, 0⟩], "✅ Scan complete"⟩ "/missing").2 = none
    ∧ (scan_projects (⟨fun _ => false, fun _ => [], fun _ => false, fun _ _ => .error "e"⟩ : Env)
        ⟨[⟨⟨"/old/a", false, none, none, none⟩, 0⟩], "✅ Scan complete"⟩
        "/missing").1.statusText = "❌ Path not found"
    ∧ (scan_projects (⟨fun _ => false, fun _ => [], fun _ => false, fun _ _ => .error "e"⟩ : Env)
        ⟨[⟨⟨"/old/a", false, none, none, none⟩, 0⟩], "✅ Scan complete"⟩
        "/missing").1.rows = []
    ∧ (⟨[⟨⟨"/old/a", false, none, none, none⟩, 0⟩], "✅ Scan complete"⟩ : AppState).rows
        ≠ [] := by
  refine ⟨rfl, rfl, rfl, by decide⟩

/-- C4 amended: a seed request whose (stripped) root path does not exist
surfaces the failure immediately and spawns no worker, but the node tree
does not stay as it was: it is cleared before the existence check,
leaving an empty row list. -/
theorem C4_seed_missing_root (env : Env) (st : AppState) (r : String)
    (h : env.pathExists r.trim = false) :
    scan_projects env st r = ({ rows := [], statusText := "❌ Path not found" }, none) := by
  simp [scan_projects, h]

/-- C4 amended witness: concrete environment where no path exists. -/
theorem C4_seed_missing_root_witness :
    (⟨fun _ => false, fun _ => [], fun _ => false, fun _ _ => .error "e"⟩ : Env).pathExists
        "/missing".trim = false
    ∧ scan_projects (⟨fun _ => false, fun _ => [], fun _ => false, fun _ _ => .error "e"⟩ : Env)
        ⟨[⟨⟨"/old/a", false, none, none, none⟩, 0⟩], "✅ Scan complete"⟩ "/missing"
        = ({ rows := [], statusText := "❌ Path not found" }, none) :=
  ⟨rfl, C4_seed_missing_root _ _ "/missing" rfl⟩

end GitOverview
